import Mathlib

set_option autoImplicit false

/-!
Verification of the federation middleware core (fedify) against its
natural-language specification.  The TypeScript source is shallowly embedded:
a JavaScript `URL` object is represented by an identity token together with
its href, so that `Set<URL>`'s reference-based (SameValueZero) membership is
captured; URL strings are href strings; `Set` insertion is order-preserving
list insertion deduplicating by object identity; fallible code returns
`Option`/`Except`.  Definitions follow `src/unnamed/part_000` (`send.ts`) and
`src/federation/middleware.ts`; the URI-template Router, whose implementation
is not part of the sources at hand, is modelled from the specification
(section 4.A) and marked as such.
-/

namespace Fedify

/-! ## Data model for recipients (src/unnamed/part_000) -/

/-- Model of a JavaScript `URL` object.  JavaScript compares objects by
reference: two `UrlObj` values denote the same object exactly when they are
equal, and distinct objects (different `ref`) may carry equal `href`s. -/
structure UrlObj where
  ref : Nat
  href : String
  deriving DecidableEq, Repr

/-- Model of the `endpoints` record of an ActivityPub actor: the optional
`sharedInbox` URL object. -/
structure EndpointsM where
  sharedInbox : Option UrlObj
  deriving DecidableEq, Repr

/-- Model of a recipient `Actor` as consumed by `extractInboxes`: the optional
personal `inboxId` and the optional `endpoints` record. -/
structure RecipientM where
  inboxId : Option UrlObj
  endpoints : Option EndpointsM
  deriving DecidableEq, Repr

/-- JavaScript `Set.add` over `URL` objects: SameValueZero membership, i.e.
comparison by object reference.  The element is appended unless the very same
object is already present; a distinct `URL` object with an equal `href` is a
different member and is added again. -/
def setAdd (s : List UrlObj) (x : UrlObj) : List UrlObj :=
  if x ∈ s then s else s ++ [x]

/-- The inbox chosen for one recipient inside the `extractInboxes` loop:
`preferSharedInbox ? recipient.endpoints?.sharedInbox ?? recipient.inboxId
: recipient.inboxId`. -/
def inboxOf (preferSharedInbox : Bool) (r : RecipientM) : Option UrlObj :=
  if preferSharedInbox then
    (r.endpoints.bind EndpointsM.sharedInbox).orElse fun _ => r.inboxId
  else r.inboxId

/-- Embedding of `extractInboxes` (src/unnamed/part_000, lines 28-39): iterate
over the recipients, compute each one's inbox, and add it to the result
`Set<URL>` when it is non-null. -/
def extractInboxes (recipients : List RecipientM) (preferSharedInbox : Bool) :
    List UrlObj :=
  recipients.foldl
    (fun inboxes r =>
      match inboxOf preferSharedInbox r with
      | none => inboxes
      | some inbox => setAdd inboxes inbox)
    []

theorem mem_setAdd {s : List UrlObj} {x u : UrlObj} :
    u ∈ setAdd s x ↔ u ∈ s ∨ u = x := by
  unfold setAdd
  by_cases h : x ∈ s
  · simp only [if_pos h]
    constructor
    · exact Or.inl
    · rintro (hu | rfl)
      · exact hu
      · exact h
  · simp [if_neg h]

theorem nodup_setAdd {s : List UrlObj} {x : UrlObj} (hs : s.Nodup) :
    (setAdd s x).Nodup := by
  unfold setAdd
  by_cases h : x ∈ s
  · simpa [if_pos h]
  · simp only [if_neg h]
    simpa [List.nodup_append] using ⟨hs, fun hx => h hx⟩

theorem mem_extractInboxes_aux (p : Bool) (rs : List RecipientM)
    (acc : List UrlObj) (u : UrlObj) :
    u ∈ rs.foldl
        (fun inboxes r =>
          match inboxOf p r with
          | none => inboxes
          | some inbox => setAdd inboxes inbox)
        acc ↔ u ∈ acc ∨ u ∈ rs.filterMap (inboxOf p) := by
  induction rs generalizing acc with
  | nil => simp
  | cons r rs ih =>
    simp only [List.foldl_cons]
    rcases h : inboxOf p r with _ | inbox
    · rw [ih]
      simp [List.filterMap_cons, h]
    · rw [ih]
      simp only [List.filterMap_cons, h, List.mem_cons, mem_setAdd]
      tauto

theorem nodup_extractInboxes_aux (p : Bool) (rs : List RecipientM)
    (acc : List UrlObj) (hacc : acc.Nodup) :
    (rs.foldl
        (fun inboxes r =>
          match inboxOf p r with
          | none => inboxes
          | some inbox => setAdd inboxes inbox)
        acc).Nodup := by
  induction rs generalizing acc with
  | nil => simpa
  | cons r rs ih =>
    simp only [List.foldl_cons]
    rcases h : inboxOf p r with _ | inbox
    · exact ih acc hacc
    · exact ih _ (nodup_setAdd hacc)

/-- Counterexample for C1 as stated: with `preferSharedInbox = true`, two
recipients whose shared inboxes are distinct `URL` objects carrying the same
href produce a TWO-element set, not the claimed one-element set —
`Set<URL>` de-duplicates by object reference, never by URL value. -/
theorem extractInboxes_counterexample :
    extractInboxes
        [⟨none, some ⟨some ⟨0, "https://host.example/inbox"⟩⟩⟩,
         ⟨none, some ⟨some ⟨1, "https://host.example/inbox"⟩⟩⟩] true =
      [⟨0, "https://host.example/inbox"⟩, ⟨1, "https://host.example/inbox"⟩]
    ∧ (⟨0, "https://host.example/inbox"⟩ : UrlObj).href =
        (⟨1, "https://host.example/inbox"⟩ : UrlObj).href
    ∧ (extractInboxes
        [⟨none, some ⟨some ⟨0, "https://host.example/inbox"⟩⟩⟩,
         ⟨none, some ⟨some ⟨1, "https://host.example/inbox"⟩⟩⟩] true).length
      ≠ 1 := by
  refine ⟨by decide, rfl, by decide⟩

/-- C1 (amended): `extractInboxes` returns the recipients' inboxes as a set
of `URL` OBJECTS de-duplicated by object reference only (JavaScript `Set`
SameValueZero semantics), not by URL value.  With `preferSharedInbox = false`
its members are exactly the non-none `inboxId` objects of the recipients;
with `preferSharedInbox = true` each recipient contributes its
`endpoints.sharedInbox` object when non-none and its `inboxId` otherwise;
recipients lacking any inbox are silently dropped; no object appears twice;
and two recipients carrying the SAME shared inbox object yield a one-element
set (distinct objects with equal hrefs yield two, per the counterexample). -/
theorem extractInboxes_spec :
    (∀ (R : List RecipientM) (u : UrlObj),
      u ∈ extractInboxes R false ↔ u ∈ R.filterMap RecipientM.inboxId)
    ∧ (∀ (R : List RecipientM) (u : UrlObj),
      u ∈ extractInboxes R true ↔
        u ∈ R.filterMap fun r =>
          (r.endpoints.bind EndpointsM.sharedInbox).orElse fun _ => r.inboxId)
    ∧ (∀ (R : List RecipientM) (p : Bool), (extractInboxes R p).Nodup)
    ∧ (∀ u : UrlObj,
      extractInboxes [⟨none, some ⟨some u⟩⟩, ⟨none, some ⟨some u⟩⟩] true = [u]) := by
  refine ⟨fun R u => ?_, fun R u => ?_, fun R p => ?_, fun u => ?_⟩
  · rw [extractInboxes, mem_extractInboxes_aux]
    simp only [List.not_mem_nil, false_or]
    have : inboxOf false = RecipientM.inboxId := by
      funext r; simp [inboxOf]
    rw [this]
  · rw [extractInboxes, mem_extractInboxes_aux]
    simp only [List.not_mem_nil, false_or]
    have : inboxOf true = fun r : RecipientM =>
        (r.endpoints.bind EndpointsM.sharedInbox).orElse fun _ => r.inboxId := by
      funext r; simp [inboxOf]
    rw [this]
  · exact nodup_extractInboxes_aux p R [] List.nodup_nil
  · simp [extractInboxes, inboxOf, setAdd, Option.orElse]

/-! ## Memoized signature verification (src/federation/middleware.ts 451-524)

`createContext` closes over two cells initialized to `undefined`:
`signedKey : CryptographicKey | null | undefined` and
`signedKeyOwner : Actor | null | undefined`.  `undefined` ("not yet computed")
is modelled as the outer `none` of an `Option (Option _)` cell and a computed
`null` as `some none`.  The external collaborators `verify` and `getKeyOwner`
are abstracted into an environment; the state counts how often each runs. -/

/-- Environment for one request: what `verify(request, loader)` returns and
what `getKeyOwner(key, loader)` returns for each key.  Keys and actors are
identified by strings. -/
structure SigEnv where
  verifyResult : Option String
  keyOwnerOf : String → Option String

/-- The per-request memoization state of `RequestContext`: the two three-state
cells plus counters for invocations of `verify` and `getKeyOwner`. -/
structure SigState where
  signedKey : Option (Option String)
  signedKeyOwner : Option (Option String)
  verifyCalls : Nat
  getKeyOwnerCalls : Nat
  deriving DecidableEq, Repr

/-- The state of a freshly created `RequestContext`: both cells `undefined`. -/
def initialSigState : SigState := ⟨none, none, 0, 0⟩

/-- Embedding of `RequestContext.getSignedKey`: return the cached value if the
cell is not `undefined`, otherwise run `verify` and cache its result. -/
def getSignedKey (env : SigEnv) (s : SigState) : Option String × SigState :=
  match s.signedKey with
  | some v => (v, s)
  | none =>
    (env.verifyResult,
      { s with signedKey := some env.verifyResult,
               verifyCalls := s.verifyCalls + 1 })

/-- Embedding of `RequestContext.getSignedKeyOwner`: return the cached value if
the cell is not `undefined`; otherwise obtain the key via `getSignedKey`, cache
`null` when the key is `null`, and otherwise run `getKeyOwner` and cache. -/
def getSignedKeyOwner (env : SigEnv) (s : SigState) : Option String × SigState :=
  match s.signedKeyOwner with
  | some v => (v, s)
  | none =>
    let r := getSignedKey env s
    match r.1 with
    | none => (none, { r.2 with signedKeyOwner := some none })
    | some k =>
      let owner := env.keyOwnerOf k
      (owner, { r.2 with signedKeyOwner := some owner,
                         getKeyOwnerCalls := r.2.getKeyOwnerCalls + 1 })

/-- A sequence of calls a request handler may make on the two accessors. -/
inductive SigCall
  | key
  | owner
  deriving DecidableEq, Repr

/-- Run a sequence of `getSignedKey` / `getSignedKeyOwner` calls, threading the
memoization state. -/
def runSigCalls (env : SigEnv) : List SigCall → SigState → SigState
  | [], s => s
  | SigCall.key :: rest, s => runSigCalls env rest (getSignedKey env s).2
  | SigCall.owner :: rest, s => runSigCalls env rest (getSignedKeyOwner env s).2

theorem sigState_invariant (env : SigEnv) (calls : List SigCall) (s : SigState)
    (h : s.verifyCalls = if s.signedKey.isSome then 1 else 0) :
    (runSigCalls env calls s).verifyCalls =
      if (runSigCalls env calls s).signedKey.isSome then 1 else 0 := by
  induction calls generalizing s with
  | nil => simpa [runSigCalls]
  | cons c rest ih =>
    cases c
    · rw [runSigCalls]
      apply ih
      rcases hk : s.signedKey with _ | v
      · simp only [getSignedKey, hk]
        simp [hk] at h
        simp [h]
      · simpa [getSignedKey, hk] using h
    · rw [runSigCalls]
      apply ih
      rcases ho : s.signedKeyOwner with _ | v
      · rcases hk : s.signedKey with _ | v
        · simp [hk] at h
          rcases hv : env.verifyResult with _ | k
          · simp [getSignedKeyOwner, ho, getSignedKey, hk, hv, h]
          · simp [getSignedKeyOwner, ho, getSignedKey, hk, hv, h]
        · simp [hk] at h
          rcases hv : v with _ | k
          · simp [getSignedKeyOwner, ho, getSignedKey, hk, hv, h]
          · simp [getSignedKeyOwner, ho, getSignedKey, hk, hv, h]
      · simpa [getSignedKeyOwner, ho] using h

/-- C4: within one request, `getSignedKey` is memoized (the second call
returns the same value and leaves the state unchanged, so signature
verification runs at most once per request, whatever sequence of accessor
calls the handler makes); `getSignedKeyOwner` is likewise memoized and its
value depends only on `getSignedKey`'s result; and the `undefined` ("not yet
computed") state of the cell is distinguished from a computed `null` result,
the cell holding `some` of the computed value after the first call. -/
theorem signedKey_memoization :
    (∀ (env : SigEnv) (s : SigState),
      getSignedKey env (getSignedKey env s).2 =
        ((getSignedKey env s).1, (getSignedKey env s).2))
    ∧ (∀ (env : SigEnv) (calls : List SigCall),
      (runSigCalls env calls initialSigState).verifyCalls ≤ 1)
    ∧ (∀ (env : SigEnv) (s : SigState),
      getSignedKeyOwner env (getSignedKeyOwner env s).2 =
        ((getSignedKeyOwner env s).1, (getSignedKeyOwner env s).2))
    ∧ (∀ (env : SigEnv) (s : SigState), s.signedKeyOwner = none →
      (getSignedKeyOwner env s).1 =
        match (getSignedKey env s).1 with
        | none => none
        | some k => env.keyOwnerOf k)
    ∧ (∀ (env : SigEnv) (s : SigState), s.signedKey = none →
      ((getSignedKey env s).2).signedKey = some (getSignedKey env s).1)
    ∧ initialSigState.signedKey = none := by
  refine ⟨fun env s => ?_, fun env calls => ?_, fun env s => ?_,
    fun env s h => ?_, fun env s h => ?_, rfl⟩
  · rcases hk : s.signedKey with _ | v <;>
      simp [getSignedKey, hk]
  · have := sigState_invariant env calls initialSigState (by rfl)
    rw [this]
    split <;> omega
  · rcases ho : s.signedKeyOwner with _ | v
    · rcases hk : s.signedKey with _ | v
      · rcases hv : env.verifyResult with _ | k <;>
          simp [getSignedKeyOwner, getSignedKey, ho, hk, hv]
      · rcases hv : v with _ | k <;>
          simp [getSignedKeyOwner, getSignedKey, ho, hk, hv]
    · simp [getSignedKeyOwner, ho]
  · rcases hk : s.signedKey with _ | v
    · rcases hv : env.verifyResult with _ | k <;>
        simp [getSignedKeyOwner, getSignedKey, h, hk, hv]
    · rcases hv : v with _ | k <;>
        simp [getSignedKeyOwner, getSignedKey, h, hk, hv]
  · simp [getSignedKey, h]

/-- Witness for C4: the hypotheses of `signedKey_memoization` hold at the
fresh request state with a concrete environment, and the conclusions evaluate
there: the owner is computed from the verified key, and the key cell moves from
`undefined` to a cached value. -/
theorem signedKey_memoization_witness :
    initialSigState.signedKeyOwner = none
    ∧ initialSigState.signedKey = none
    ∧ (getSignedKeyOwner ⟨some "key1", fun k => some ("owner-of-" ++ k)⟩
        initialSigState).1 = some "owner-of-key1"
    ∧ ((getSignedKey ⟨none, fun _ => none⟩ initialSigState).2).signedKey =
        some none := by
  refine ⟨rfl, rfl, ?_, ?_⟩
  · rw [signedKey_memoization.2.2.2.1 ⟨some "key1", fun k => some ("owner-of-" ++ k)⟩
      initialSigState rfl]
    rfl
  · rw [signedKey_memoization.2.2.2.2.1 ⟨none, fun _ => none⟩ initialSigState rfl]
    rfl

/-! ## Outbound queue listener (src/federation/middleware.ts 215-272) -/

/-- Model of an `Activity` as far as the send pipeline inspects it: the `id`
and the (first) `actorId`, both URL href strings. -/
structure ActivityM where
  id : Option String
  actorId : Option String
  deriving DecidableEq, Repr

/-- Model of `OutboxMessage` (queue.ts shape, §6): the rehydratable activity is
carried directly, the key material as opaque strings. -/
structure OutboxMessage where
  type : String
  keyId : String
  privateKey : String
  activity : ActivityM
  inbox : String
  trial : Nat
  deriving DecidableEq, Repr

/-- The default backoff schedule from the `Federation` constructor
(middleware.ts 197-203), in milliseconds. -/
def defaultBackoffSchedule : List Nat :=
  [3000, 15000, 60000, 15 * 60000, 60 * 60000]

/-- How one invocation of `Federation.#listenQueue` terminates: the try block
either succeeds, or throws while deserializing the activity (importJwk /
`Activity.fromJsonLd`, before `sendActivity` runs), or throws during the send
itself (after the activity has been deserialized). -/
inductive DeliveryOutcome
  | success
  | deserializationFailure
  | sendFailure
  deriving DecidableEq, Repr

/-- The observable effects of one `#listenQueue` invocation: the `activity`
arguments passed to `onOutboxError` (in order), and the messages re-enqueued
together with their `delay` option. -/
structure ListenResult where
  errorCalls : List (Option ActivityM)
  enqueued : List (OutboxMessage × Option Nat)
  deriving DecidableEq, Repr

/-- The retry step of the catch block (middleware.ts 249-265): when
`message.trial < backoffSchedule.length` the message is re-enqueued with
`trial + 1` and `delay = backoffSchedule[message.trial]`; otherwise the
listener gives up and nothing is enqueued. -/
def retryEnqueues (backoff : List Nat) (msg : OutboxMessage) :
    List (OutboxMessage × Option Nat) :=
  if msg.trial < backoff.length then
    [({ msg with trial := msg.trial + 1 }, backoff[msg.trial]?)]
  else []

/-- Embedding of `Federation.#listenQueue`: on success nothing is observed; on
any failure `onOutboxError` is called once — with `null` when the activity was
never deserialized, with the activity otherwise — and the shared catch block
then applies the retry step. -/
def listenQueue (backoff : List Nat) (msg : OutboxMessage)
    (outcome : DeliveryOutcome) : ListenResult :=
  match outcome with
  | .success => ⟨[], []⟩
  | .deserializationFailure => ⟨[none], retryEnqueues backoff msg⟩
  | .sendFailure => ⟨[some msg.activity], retryEnqueues backoff msg⟩

/-- The trace of messages processed after `msg` when every delivery attempt
fails: each element is the re-enqueued message (with its delay) produced by
the failing run of the previous one. -/
def failureAttempts (backoff : List Nat) (msg : OutboxMessage) :
    List (OutboxMessage × Option Nat) :=
  if msg.trial < backoff.length then
    ({ msg with trial := msg.trial + 1 }, backoff[msg.trial]?) ::
      failureAttempts backoff { msg with trial := msg.trial + 1 }
  else []
termination_by backoff.length - msg.trial
decreasing_by simp; omega

theorem failureAttempts_length_aux (b : List Nat) (d : Nat) :
    ∀ m : OutboxMessage, b.length - m.trial = d →
      (failureAttempts b m).length = d := by
  induction d with
  | zero =>
    intro m h
    rw [failureAttempts, if_neg (by omega)]
    rfl
  | succ n ih =>
    intro m h
    rw [failureAttempts, if_pos (by omega)]
    simp only [List.length_cons]
    rw [ih { m with trial := m.trial + 1 } (by simp; omega)]

theorem failureAttempts_get_aux (b : List Nat) (k : Nat) :
    ∀ m : OutboxMessage, m.trial + k < b.length →
      (failureAttempts b m)[k]? =
        some ({ m with trial := m.trial + k + 1 }, b[m.trial + k]?) := by
  induction k with
  | zero =>
    intro m h
    rw [failureAttempts, if_pos (by omega)]
    simp
  | succ n ih =>
    intro m h
    rw [failureAttempts, if_pos (by omega)]
    rw [List.getElem?_cons_succ]
    rw [ih { m with trial := m.trial + 1 } (by simp; omega)]
    dsimp only
    have h1 : m.trial + 1 + n = m.trial + (n + 1) := by omega
    rw [h1]

/-- C2: when an outbound delivery fails, the listener re-enqueues the message
with `trial + 1` and `delay = backoffSchedule[message.trial]` exactly when
`message.trial < len(backoffSchedule)` and enqueues nothing otherwise; the
always-failing trace starting at `trial = 0` therefore consists of
`1 + len(backoffSchedule)` attempts in total, and its k-th re-enqueued message
(0-based `k`, i.e. the (k+1)-st retry) carries delay `backoffSchedule[k]`. -/
theorem outbox_retry_schedule :
    (∀ (b : List Nat) (m : OutboxMessage), m.trial < b.length →
      (listenQueue b m .sendFailure).enqueued =
        [({ m with trial := m.trial + 1 }, b[m.trial]?)])
    ∧ (∀ (b : List Nat) (m : OutboxMessage), b.length ≤ m.trial →
      (listenQueue b m .sendFailure).enqueued = [])
    ∧ (∀ (b : List Nat) (m : OutboxMessage),
      failureAttempts b m =
        match (listenQueue b m .sendFailure).enqueued with
        | [] => []
        | e :: _ => e :: failureAttempts b e.1)
    ∧ (∀ (b : List Nat) (m : OutboxMessage), m.trial = 0 →
      1 + (failureAttempts b m).length = 1 + b.length)
    ∧ (∀ (b : List Nat) (m : OutboxMessage) (k : Nat), m.trial = 0 →
      k < b.length →
      (failureAttempts b m)[k]? = some ({ m with trial := k + 1 }, b[k]?)) := by
  refine ⟨fun b m h => ?_, fun b m h => ?_, fun b m => ?_, fun b m h => ?_,
    fun b m k h hk => ?_⟩
  · simp [listenQueue, retryEnqueues, if_pos h]
  · have hn : ¬ m.trial < b.length := by omega
    simp [listenQueue, retryEnqueues, hn]
  · simp only [listenQueue, retryEnqueues]
    rw [failureAttempts]
    by_cases h : m.trial < b.length
    · rw [if_pos h, if_pos h]
    · rw [if_neg h, if_neg h]
  · rw [failureAttempts_length_aux b b.length m (by omega)]
  · have hg := failureAttempts_get_aux b k m (by omega)
    rw [hg]
    simp [h]

/-- Witness for C2: with the schedule `[100, 200]` and a failing message at
`trial = 0`, the failure re-enqueues `trial = 1` with delay `100`; a message at
`trial = 2` is not re-enqueued; there are `3 = 1 + 2` total attempts; and the
second retry carries delay `200`. -/
theorem outbox_retry_schedule_witness :
    ((0 : Nat) < 2
      ∧ (listenQueue [100, 200] ⟨"outbox", "k", "pk", ⟨none, none⟩, "i", 0⟩
          .sendFailure).enqueued =
        [(⟨"outbox", "k", "pk", ⟨none, none⟩, "i", 1⟩, some 100)])
    ∧ ((2 : Nat) ≤ 2
      ∧ (listenQueue [100, 200] ⟨"outbox", "k", "pk", ⟨none, none⟩, "i", 2⟩
          .sendFailure).enqueued = [])
    ∧ (1 + (failureAttempts [100, 200]
          ⟨"outbox", "k", "pk", ⟨none, none⟩, "i", 0⟩).length = 1 + 2)
    ∧ ((failureAttempts [100, 200]
          ⟨"outbox", "k", "pk", ⟨none, none⟩, "i", 0⟩)[1]? =
        some (⟨"outbox", "k", "pk", ⟨none, none⟩, "i", 2⟩, some 200)) := by
  refine ⟨⟨by decide, ?_⟩, ⟨by decide, ?_⟩, ?_, ?_⟩
  · exact outbox_retry_schedule.1 [100, 200]
      ⟨"outbox", "k", "pk", ⟨none, none⟩, "i", 0⟩ (by decide)
  · exact outbox_retry_schedule.2.1 [100, 200]
      ⟨"outbox", "k", "pk", ⟨none, none⟩, "i", 2⟩ (by decide)
  · exact outbox_retry_schedule.2.2.2.1 [100, 200]
      ⟨"outbox", "k", "pk", ⟨none, none⟩, "i", 0⟩ rfl
  · exact outbox_retry_schedule.2.2.2.2 [100, 200]
      ⟨"outbox", "k", "pk", ⟨none, none⟩, "i", 0⟩ 1 rfl (by decide)

/-- Counterexample for C3 as stated: with the default backoff schedule, a
message at `trial = 0` whose activity fails to deserialize IS re-enqueued —
the shared catch block retries deserialization failures exactly like delivery
failures, so the message is not dropped. -/
theorem outbox_deserialization_counterexample :
    (listenQueue defaultBackoffSchedule
      ⟨"outbox", "https://example.com/users/john#main-key", "jwk",
        ⟨some "https://example.com/a/1", some "https://example.com/users/john"⟩,
        "https://remote.example/inbox", 0⟩
      .deserializationFailure).enqueued ≠ [] := by
  decide

/-- C3 (amended): when the activity of an `OutboxMessage` fails to
deserialize, `onOutboxError` is invoked once with `activity = null`; the
message is then handled by the same retry logic as any failure — re-enqueued
with `trial + 1` and delay `backoffSchedule[trial]` when
`trial < len(backoffSchedule)`, and dropped only when the schedule is
exhausted. -/
theorem outbox_deserialization_failure :
    ∀ (b : List Nat) (m : OutboxMessage),
      (listenQueue b m .deserializationFailure).errorCalls = [none]
      ∧ (listenQueue b m .deserializationFailure).enqueued =
        (if m.trial < b.length
          then [({ m with trial := m.trial + 1 }, b[m.trial]?)]
          else []) := by
  intro b m
  exact ⟨rfl, rfl⟩

/-! ## Send pipeline (src/unnamed/part_000 78-103 and
src/federation/middleware.ts 1009-1089) -/

/-- One observable step of the per-inbox send in src/unnamed/part_000: the
signed `POST <inbox>` request dispatched over the network. -/
inductive SendStep
  | post (inbox : String)
  deriving DecidableEq, Repr

/-- Embedding of `sendActivity` (src/unnamed/part_000, lines 78-103): throw a
`TypeError` when the activity has no actor, before the JSON-LD serialization,
the request construction, the signing, and the network dispatch. -/
def sendActivity (activity : ActivityM) (inbox : String) :
    Except String (List SendStep) :=
  if activity.actorId = none then
    .error "The activity to send must have at least one actor property."
  else .ok [.post inbox]

/-- The id-minting step of `Federation.sendActivity` (middleware.ts
1026-1030): when the activity has no id, clone it with a fresh
`urn:uuid:<v4>` id; `uuid` stands for the fresh `crypto.randomUUID()`. -/
def mintId (activity : ActivityM) (uuid : String) : ActivityM :=
  if activity.id = none then
    { activity with id := some ("urn:uuid:" ++ uuid) }
  else activity

/-- One observable effect of `Federation.sendActivity`: either an immediate
per-inbox delivery or an enqueued `OutboxMessage`. -/
inductive OutEffect
  | deliver (inbox : String) (activity : ActivityM)
  | enqueue (m : OutboxMessage)
  deriving DecidableEq, Repr

namespace Federation

/-- Embedding of `Federation.sendActivity` (middleware.ts 1009-1089): fail
with a `TypeError` when the activity lacks an actor; otherwise mint an id if
absent, extract the recipient inboxes (a `Set<URL>`, i.e. reference-distinct
URL objects), and either deliver to every extracted inbox immediately (when
`immediate` is set or no queue is configured) or enqueue one `OutboxMessage`
per extracted inbox with `trial = 0`, its `inbox` field being `inbox.href` as
in the source.  `keyId` and `privateKeyJwk` model the sender key material;
key validation and document-loader construction are external collaborators
with no observable effect here. -/
def sendActivity (hasQueue : Bool) (keyId privateKeyJwk : String)
    (recipients : List RecipientM) (activity : ActivityM)
    (preferSharedInbox immediate : Bool) (uuid : String) :
    Except String (List OutEffect) :=
  if activity.actorId = none then
    .error "The activity to send must have at least one actor property."
  else
    let sent := mintId activity uuid
    let inboxes := extractInboxes recipients preferSharedInbox
    if immediate || !hasQueue then
      .ok (inboxes.map fun inbox => .deliver inbox.href sent)
    else
      .ok (inboxes.map fun inbox =>
        .enqueue ⟨"outbox", keyId, privateKeyJwk, sent, inbox.href, 0⟩)

end Federation

/-- C6: both `Federation.sendActivity` and the per-inbox `sendActivity` of the
send pipeline fail with a `TypeError` when the activity's actor property is
absent, and the failure carries no effects: nothing is delivered over the
network and no message is enqueued. -/
theorem sendActivity_requires_actor :
    (∀ (hasQueue : Bool) (keyId pk : String) (recipients : List RecipientM)
      (activity : ActivityM) (prefer immediate : Bool) (uuid : String),
      activity.actorId = none →
      Federation.sendActivity hasQueue keyId pk recipients activity prefer
          immediate uuid =
        .error "The activity to send must have at least one actor property.")
    ∧ (∀ (activity : ActivityM) (inbox : String),
      activity.actorId = none →
      sendActivity activity inbox =
        .error "The activity to send must have at least one actor property.") := by
  constructor
  · intro hasQueue keyId pk recipients activity prefer immediate uuid h
    rw [Federation.sendActivity, if_pos h]
  · intro activity inbox h
    rw [sendActivity, if_pos h]

/-- Witness for C6: an activity with no actor is rejected by both levels. -/
theorem sendActivity_requires_actor_witness :
    (ActivityM.mk none none).actorId = none
    ∧ Federation.sendActivity true "k" "pk" [] ⟨none, none⟩ false false "u" =
      .error "The activity to send must have at least one actor property."
    ∧ sendActivity ⟨none, none⟩ "https://remote.example/inbox" =
      .error "The activity to send must have at least one actor property." := by
  refine ⟨rfl, ?_, ?_⟩
  · exact sendActivity_requires_actor.1 true "k" "pk" [] ⟨none, none⟩
      false false "u" rfl
  · exact sendActivity_requires_actor.2 ⟨none, none⟩
      "https://remote.example/inbox" rfl

/-- C9: `Federation.sendActivity` mints a fresh `urn:uuid:<v4>` id when the
activity has none; in queued mode (queue configured, `immediate` unset) it
enqueues exactly one `OutboxMessage` per extracted inbox — one per
reference-distinct member of the extracted `Set<URL>`, each carrying
`inbox.href` and `trial = 0` — and in immediate mode (or without a queue) it
issues exactly one delivery per extracted inbox, the call succeeding only
with all of them performed; in every successful call the number of effects
equals the number of extracted inboxes. -/
theorem sendActivity_modes :
    (∀ (a : ActivityM) (uuid : String), a.id = none →
      mintId a uuid = { a with id := some ("urn:uuid:" ++ uuid) })
    ∧ (∀ (hq : Bool) (k pk : String) (R : List RecipientM) (a : ActivityM)
        (p i : Bool) (u : String),
      a.actorId ≠ none → hq = true → i = false →
      Federation.sendActivity hq k pk R a p i u =
        .ok ((extractInboxes R p).map fun inbox =>
          .enqueue ⟨"outbox", k, pk, mintId a u, inbox.href, 0⟩))
    ∧ (∀ (hq : Bool) (k pk : String) (R : List RecipientM) (a : ActivityM)
        (p i : Bool) (u : String),
      a.actorId ≠ none → (i = true ∨ hq = false) →
      Federation.sendActivity hq k pk R a p i u =
        .ok ((extractInboxes R p).map fun inbox =>
          .deliver inbox.href (mintId a u)))
    ∧ (∀ (hq : Bool) (k pk : String) (R : List RecipientM) (a : ActivityM)
        (p i : Bool) (u : String) (es : List OutEffect),
      Federation.sendActivity hq k pk R a p i u = .ok es →
      es.length = (extractInboxes R p).length) := by
  refine ⟨fun a uuid h => ?_, fun hq k pk R a p i u ha hhq hi => ?_,
    fun hq k pk R a p i u ha hmode => ?_,
    fun hq k pk R a p i u es hes => ?_⟩
  · rw [mintId, if_pos h]
  · subst hhq hi
    rw [Federation.sendActivity, if_neg ha]
    rfl
  · rw [Federation.sendActivity, if_neg ha]
    rcases hmode with rfl | rfl
    · rfl
    · cases i <;> rfl
  · rw [Federation.sendActivity] at hes
    by_cases ha : a.actorId = none
    · rw [if_pos ha] at hes
      cases hes
    · rw [if_neg ha] at hes
      by_cases hm : (i || !hq) = true
      · rw [if_pos hm] at hes
        cases hes
        simp
      · rw [if_neg hm] at hes
        cases hes
        simp

/-- Witness for C9: a concrete id-less activity gets the minted
`urn:uuid:fresh` id; with one recipient carrying a personal inbox object,
queued mode enqueues exactly one message at `trial = 0` carrying the inbox
href, immediate mode issues exactly one delivery, and the effect count equals
the extracted inbox count. -/
theorem sendActivity_modes_witness :
    mintId ⟨none, some "https://example.com/users/john"⟩ "fresh" =
      ⟨some ("urn:uuid:" ++ "fresh"), some "https://example.com/users/john"⟩
    ∧ Federation.sendActivity true "k" "pk"
        [⟨some ⟨0, "https://remote.example/inbox"⟩, none⟩]
        ⟨none, some "https://example.com/users/john"⟩ false false "fresh" =
      .ok [.enqueue ⟨"outbox", "k", "pk",
        ⟨some "urn:uuid:fresh", some "https://example.com/users/john"⟩,
        "https://remote.example/inbox", 0⟩]
    ∧ Federation.sendActivity false "k" "pk"
        [⟨some ⟨0, "https://remote.example/inbox"⟩, none⟩]
        ⟨none, some "https://example.com/users/john"⟩ false false "fresh" =
      .ok [.deliver "https://remote.example/inbox"
        ⟨some "urn:uuid:fresh", some "https://example.com/users/john"⟩]
    ∧ (1 : Nat) =
      (extractInboxes [⟨some ⟨0, "https://remote.example/inbox"⟩, none⟩]
        false).length := by
  refine ⟨?_, ?_, ?_, ?_⟩
  · exact sendActivity_modes.1 ⟨none, some "https://example.com/users/john"⟩
      "fresh" rfl
  · rw [sendActivity_modes.2.1 true "k" "pk"
      [⟨some ⟨0, "https://remote.example/inbox"⟩, none⟩]
      ⟨none, some "https://example.com/users/john"⟩ false false "fresh"
      (by simp) rfl rfl]
    rfl
  · rw [sendActivity_modes.2.2.1 false "k" "pk"
      [⟨some ⟨0, "https://remote.example/inbox"⟩, none⟩]
      ⟨none, some "https://example.com/users/john"⟩ false false "fresh"
      (by simp) (Or.inr rfl)]
    rfl
  · exact sendActivity_modes.2.2.2 true "k" "pk"
      [⟨some ⟨0, "https://remote.example/inbox"⟩, none⟩]
      ⟨none, some "https://example.com/users/john"⟩ false false "fresh"
      [.enqueue ⟨"outbox", "k", "pk",
        ⟨some "urn:uuid:fresh", some "https://example.com/users/john"⟩,
        "https://remote.example/inbox", 0⟩] (by rfl)

/-! ## URI templates and the Router

The Router implementation (`router.ts`) is not among the sources at hand; only
its callers in `middleware.ts` are.  The definitions in this section are
therefore modelled from the specification, section 4.A: templates are
sequences of literal and `{var}` segments, paths are sequences of
`/`-separated segments of bytes, reverse building percent-encodes every
substituted value, and matching binds each variable to one decoded segment. -/

/-- A byte sequence; path segments and template variable values are bytes. -/
abbrev Bytes := List Nat

/-- The UTF-8-agnostic byte view of an ASCII string literal, for concrete
paths and witnesses. -/
def strBytes (s : String) : Bytes := s.data.map Char.toNat

/-- RFC 3986 unreserved bytes: ALPHA / DIGIT / `-` / `.` / `_` / `~`. -/
def isUnreservedByte (b : Nat) : Bool :=
  (65 ≤ b && b ≤ 90) || (97 ≤ b && b ≤ 122) || (48 ≤ b && b ≤ 57) ||
    b == 45 || b == 46 || b == 95 || b == 126

/-- The upper-case hexadecimal digit for a nibble. -/
def hexDigit (n : Nat) : Nat := if n < 10 then 48 + n else 55 + n

/-- The value of a hexadecimal digit byte (0 for non-digits). -/
def hexVal (c : Nat) : Nat :=
  if 48 ≤ c ∧ c ≤ 57 then c - 48
  else if 65 ≤ c ∧ c ≤ 70 then c - 55
  else if 97 ≤ c ∧ c ≤ 102 then c - 87
  else 0

/-- Modelled from the spec: percent-encoding of a byte sequence — unreserved
bytes pass through, every other byte becomes `%HH`. -/
def pctEncode : Bytes → Bytes
  | [] => []
  | b :: bs =>
    (if isUnreservedByte b then [b]
     else [37, hexDigit (b / 16), hexDigit (b % 16)]) ++ pctEncode bs

/-- Modelled from the spec: percent-decoding — a `%HH` triple becomes the
denoted byte, everything else passes through. -/
def pctDecode (l : Bytes) : Bytes :=
  match l with
  | [] => []
  | b :: h1 :: h2 :: rest =>
    if b = 37 then (hexVal h1 * 16 + hexVal h2) :: pctDecode rest
    else b :: pctDecode (h1 :: h2 :: rest)
  | b :: rest => b :: pctDecode rest
termination_by l.length
decreasing_by all_goals (simp only [List.length_cons]; omega)

theorem pctDecode_cons_ne {b : Nat} {rest : Bytes} (h : b ≠ 37) :
    pctDecode (b :: rest) = b :: pctDecode rest := by
  match rest with
  | [] => simp [pctDecode]
  | [x] => simp [pctDecode]
  | x :: y :: r => rw [pctDecode, if_neg h]

theorem pctDecode_triple (h1 h2 : Nat) (rest : Bytes) :
    pctDecode (37 :: h1 :: h2 :: rest) =
      (hexVal h1 * 16 + hexVal h2) :: pctDecode rest := by
  rw [pctDecode, if_pos rfl]

theorem hexVal_hexDigit {n : Nat} (h : n < 16) : hexVal (hexDigit n) = n := by
  unfold hexDigit hexVal
  by_cases h10 : n < 10
  · rw [if_pos h10, if_pos (by omega)]
    omega
  · rw [if_neg h10, if_neg (by omega), if_pos (by omega)]
    omega

theorem isUnreservedByte_ne37 {b : Nat} (h : isUnreservedByte b = true) :
    b ≠ 37 := by
  intro hb
  subst hb
  simp [isUnreservedByte] at h

theorem pctDecode_pctEncode (bs : Bytes) (h : ∀ b ∈ bs, b < 256) :
    pctDecode (pctEncode bs) = bs := by
  induction bs with
  | nil => simp [pctEncode, pctDecode]
  | cons b bs ih =>
    have hb : b < 256 := h b (List.mem_cons_self b bs)
    have hrest : ∀ x ∈ bs, x < 256 := fun x hx => h x (List.mem_cons_of_mem b hx)
    by_cases hu : isUnreservedByte b
    · simp only [pctEncode, if_pos hu, List.singleton_append]
      rw [pctDecode_cons_ne (isUnreservedByte_ne37 hu)]
      rw [ih hrest]
    · simp only [pctEncode, if_neg hu, List.cons_append, List.nil_append]
      rw [pctDecode_triple]
      rw [hexVal_hexDigit (by omega), hexVal_hexDigit (Nat.mod_lt b (by omega))]
      rw [ih hrest]
      congr 1
      omega

/-- A URI-template segment: a literal, or a simple `{var}` expansion. -/
inductive Seg
  | lit (content : Bytes)
  | var (name : String)
  deriving DecidableEq, Repr

/-- A URI template restricted to simple `{var}` expansions: one segment per
path component. -/
abbrev Template := List Seg

/-- A literal template segment from an ASCII string. -/
def litS (s : String) : Seg := .lit (strBytes s)

/-- The variable names of a template, in order, with repetitions. -/
def templateVars : Template → List String
  | [] => []
  | .lit _ :: t => templateVars t
  | .var n :: t => n :: templateVars t

/-- Modelled from the spec: the set of variable names of a template, as
returned by `Router.add`. -/
def varSet (t : Template) : List String := (templateVars t).dedup

/-- Modelled from the spec: reverse building — substitute every `{var}` with
the percent-encoded value; a missing variable produces `none`. -/
def expandTemplate : Template → List (String × Bytes) → Option (List Bytes)
  | [], _ => some []
  | .lit s :: t, values => (expandTemplate t values).map (s :: ·)
  | .var n :: t, values =>
    match values.lookup n with
    | none => none
    | some v => (expandTemplate t values).map (pctEncode v :: ·)

/-- Modelled from the spec: forward matching — literal segments must match
exactly (case-sensitively), a variable matches one segment and binds its
decoded bytes. -/
def matchTemplate : Template → List Bytes → Option (List (String × Bytes))
  | [], [] => some []
  | .lit s :: t, seg :: path =>
    if seg = s then matchTemplate t path else none
  | .var n :: t, seg :: path =>
    (matchTemplate t path).map ((n, pctDecode seg) :: ·)
  | _, _ => none

/-- A named route of the Router. -/
structure Route where
  name : String
  template : Template
  deriving DecidableEq, Repr

/-- The error thrown by the Router and by registration/URL-building. -/
structure RouterError where
  message : String
  deriving DecidableEq, Repr

/-- The number of literal segments of a template, the longest-match measure. -/
def litCount : Template → Nat
  | [] => 0
  | .lit _ :: t => litCount t + 1
  | .var _ :: t => litCount t

namespace Router

/-- Modelled from the spec: `has(name)`. -/
def has (router : List Route) (name : String) : Bool :=
  router.any fun r => r.name == name

/-- Modelled from the spec: `add(template, name)` registers the route and
returns the set of variable names (duplicate names are guarded by the
registration methods modelled below, which check `has` first). -/
def add (router : List Route) (template : Template) (name : String) :
    List Route × List String :=
  (router ++ [⟨name, template⟩], varSet template)

/-- Modelled from the spec: `build(name, values)` — reverse building via the
named route's template; `none` for an unknown name or a missing variable. -/
def build (router : List Route) (name : String)
    (values : List (String × Bytes)) : Option (List Bytes) :=
  match router.find? (fun r => r.name == name) with
  | none => none
  | some r => expandTemplate r.template values

/-- Modelled from the spec: `route(path)` — among the routes whose template
matches the path, the one with the most literal segments wins. -/
def route (router : List Route) (path : List Bytes) :
    Option (Route × List (String × Bytes)) :=
  match router with
  | [] => none
  | r :: rest =>
    match matchTemplate r.template path, route rest path with
    | some v, none => some (r, v)
    | some v, some (r2, v2) =>
      if litCount r.template < litCount r2.template then some (r2, v2)
      else some (r, v)
    | none, o => o

end Router

/-! ## Federation registration state (src/federation/middleware.ts 133-997) -/

/-- The registration-relevant state of a `Federation` instance: the router and
which dispatcher callbacks are stored (object dispatchers together with their
template parameters, as in `ObjectCallbacks`). -/
structure FedState where
  router : List Route
  nodeInfoDispatcher : Bool
  actorCallbacks : Bool
  objectCallbacks : List (String × List String)
  outboxCallbacks : Bool
  followingCallbacks : Bool
  followersCallbacks : Bool
  inboxListenersSet : Bool
  deriving DecidableEq, Repr

/-- The `/.well-known/webfinger` template added by the constructor. -/
def webfingerTemplate : Template := [litS ".well-known", litS "webfinger"]

/-- The `/.well-known/nodeinfo` template added by the constructor. -/
def nodeInfoJrdTemplate : Template := [litS ".well-known", litS "nodeinfo"]

/-- The state produced by the `Federation` constructor (middleware.ts
160-204): the router holds the two well-known routes and no dispatcher is
registered. -/
def newFederation : FedState :=
  { router := [⟨"webfinger", webfingerTemplate⟩,
               ⟨"nodeInfoJrd", nodeInfoJrdTemplate⟩],
    nodeInfoDispatcher := false,
    actorCallbacks := false,
    objectCallbacks := [],
    outboxCallbacks := false,
    followingCallbacks := false,
    followersCallbacks := false,
    inboxListenersSet := false }

/-- Embedding of `Federation.setNodeInfoDispatcher` (middleware.ts 538-552):
duplicate check, route addition, then the zero-variable check — note the
route is added before the check runs. -/
def setNodeInfoDispatcher (st : FedState) (path : Template) :
    Option RouterError × FedState :=
  if Router.has st.router "nodeInfo" then
    (some ⟨"NodeInfo dispatcher already set."⟩, st)
  else
    let pr := Router.add st.router path "nodeInfo"
    let st1 := { st with router := pr.1 }
    if pr.2.length ≠ 0 then
      (some ⟨"Path for NodeInfo dispatcher must have no variables."⟩, st1)
    else (none, { st1 with nodeInfoDispatcher := true })

/-- Embedding of `Federation.setActorDispatcher` (middleware.ts 579-605):
duplicate check, route addition, then the exactly-`{handle}` check — the
route is added before the check, and the callbacks only after it. -/
def setActorDispatcher (st : FedState) (path : Template) :
    Option RouterError × FedState :=
  if Router.has st.router "actor" then
    (some ⟨"Actor dispatcher already set."⟩, st)
  else
    let pr := Router.add st.router path "actor"
    let st1 := { st with router := pr.1 }
    if pr.2.length ≠ 1 ∨ ¬ pr.2.contains "handle" then
      (some ⟨"Path for actor dispatcher must have one variable: {handle}"⟩, st1)
    else (none, { st1 with actorCallbacks := true })

/-- Embedding of `Federation.setObjectDispatcher` (middleware.ts 737-765):
the route is named `object:<typeId>`, must be fresh, and its template must
have at least one variable; the template variables are stored as the
dispatcher's parameters. -/
def setObjectDispatcher (st : FedState) (typeId : String) (path : Template) :
    Option RouterError × FedState :=
  if Router.has st.router ("object:" ++ typeId) then
    (some ⟨"Object dispatcher for " ++ typeId ++ " already set."⟩, st)
  else
    let pr := Router.add st.router path ("object:" ++ typeId)
    let st1 := { st with router := pr.1 }
    if pr.2.length < 1 then
      (some ⟨"Path for object dispatcher must have at least one variable."⟩, st1)
    else (none, { st1 with objectCallbacks := (typeId, pr.2) :: st.objectCallbacks })

/-- Embedding of `Federation.setOutboxDispatcher` (middleware.ts 790-826). -/
def setOutboxDispatcher (st : FedState) (path : Template) :
    Option RouterError × FedState :=
  if Router.has st.router "outbox" then
    (some ⟨"Outbox dispatcher already set."⟩, st)
  else
    let pr := Router.add st.router path "outbox"
    let st1 := { st with router := pr.1 }
    if pr.2.length ≠ 1 ∨ ¬ pr.2.contains "handle" then
      (some ⟨"Path for outbox dispatcher must have one variable: {handle}"⟩, st1)
    else (none, { st1 with outboxCallbacks := true })

/-- Embedding of `Federation.setFollowingDispatcher` (middleware.ts 839-875). -/
def setFollowingDispatcher (st : FedState) (path : Template) :
    Option RouterError × FedState :=
  if Router.has st.router "following" then
    (some ⟨"Following collection dispatcher already set."⟩, st)
  else
    let pr := Router.add st.router path "following"
    let st1 := { st with router := pr.1 }
    if pr.2.length ≠ 1 ∨ ¬ pr.2.contains "handle" then
      (some ⟨"Path for following collection dispatcher must have one variable: {handle}"⟩,
        st1)
    else (none, { st1 with followingCallbacks := true })

/-- Embedding of `Federation.setFollowersDispatcher` (middleware.ts 888-924). -/
def setFollowersDispatcher (st : FedState) (path : Template) :
    Option RouterError × FedState :=
  if Router.has st.router "followers" then
    (some ⟨"Followers collection dispatcher already set."⟩, st)
  else
    let pr := Router.add st.router path "followers"
    let st1 := { st with router := pr.1 }
    if pr.2.length ≠ 1 ∨ ¬ pr.2.contains "handle" then
      (some ⟨"Path for followers collection dispatcher must have one variable: {handle}"⟩,
        st1)
    else (none, { st1 with followersCallbacks := true })

/-- Embedding of `Federation.setInboxListeners` (middleware.ts 955-997): the
personal inbox template must have exactly `{handle}`; the shared inbox
template, when given, must have no variables; each route is added before its
check. -/
def setInboxListeners (st : FedState) (inboxPath : Template)
    (sharedInboxPath : Option Template) : Option RouterError × FedState :=
  if Router.has st.router "inbox" then
    (some ⟨"Inbox already set."⟩, st)
  else
    let pr := Router.add st.router inboxPath "inbox"
    let st1 := { st with router := pr.1 }
    if pr.2.length ≠ 1 ∨ ¬ pr.2.contains "handle" then
      (some ⟨"Path for inbox must have one variable: {handle}"⟩, st1)
    else
      match sharedInboxPath with
      | none => (none, { st1 with inboxListenersSet := true })
      | some sp =>
        let pr2 := Router.add st1.router sp "sharedInbox"
        let st2 := { st1 with router := pr2.1 }
        if pr2.2.length ≠ 0 then
          (some ⟨"Path for shared inbox must have no variables."⟩, st2)
        else (none, { st2 with inboxListenersSet := true })

/-! ## Context URL builders (src/federation/middleware.ts 344-449) -/

/-- An error surfaced by a context URL builder: a `RouterError` or a
`TypeError` (for missing object parameters). -/
inductive CtxError
  | routerError (message : String)
  | typeError (message : String)
  deriving DecidableEq, Repr

/-- A URL, reduced to what the claims inspect: its origin and its path
segments. -/
structure Url where
  origin : String
  path : List Bytes
  deriving DecidableEq, Repr

/-- Embedding of `Context.getNodeInfoUri`. -/
def getNodeInfoUri (st : FedState) (origin : String) : Except CtxError Url :=
  match Router.build st.router "nodeInfo" [] with
  | none => .error (.routerError "No NodeInfo dispatcher registered.")
  | some p => .ok ⟨origin, p⟩

/-- Embedding of `Context.getActorUri`. -/
def getActorUri (st : FedState) (origin : String) (handle : Bytes) :
    Except CtxError Url :=
  match Router.build st.router "actor" [("handle", handle)] with
  | none => .error (.routerError "No actor dispatcher registered.")
  | some p => .ok ⟨origin, p⟩

/-- Embedding of `Context.getObjectUri`: look up the object callbacks by type
id, require every declared parameter in `values` (a `TypeError` otherwise),
then reverse-build the `object:<typeId>` route. -/
def getObjectUri (st : FedState) (origin : String) (typeId : String)
    (values : List (String × Bytes)) : Except CtxError Url :=
  match st.objectCallbacks.lookup typeId with
  | none => .error (.routerError "No object dispatcher registered.")
  | some params =>
    match params.find? (fun p => (values.lookup p).isNone) with
    | some p => .error (.typeError ("Missing parameter: " ++ p))
    | none =>
      match Router.build st.router ("object:" ++ typeId) values with
      | none => .error (.routerError "No object dispatcher registered.")
      | some path => .ok ⟨origin, path⟩

/-- Embedding of `Context.getOutboxUri`. -/
def getOutboxUri (st : FedState) (origin : String) (handle : Bytes) :
    Except CtxError Url :=
  match Router.build st.router "outbox" [("handle", handle)] with
  | none => .error (.routerError "No outbox dispatcher registered.")
  | some p => .ok ⟨origin, p⟩

/-- Embedding of `Context.getInboxUri`: with no handle, build the shared
inbox path; with a handle, the personal inbox path. -/
def getInboxUri (st : FedState) (origin : String) (handle : Option Bytes) :
    Except CtxError Url :=
  match handle with
  | none =>
    match Router.build st.router "sharedInbox" [] with
    | none => .error (.routerError "No shared inbox path registered.")
    | some p => .ok ⟨origin, p⟩
  | some h =>
    match Router.build st.router "inbox" [("handle", h)] with
    | none => .error (.routerError "No inbox path registered.")
    | some p => .ok ⟨origin, p⟩

/-- Embedding of `Context.getFollowingUri`. -/
def getFollowingUri (st : FedState) (origin : String) (handle : Bytes) :
    Except CtxError Url :=
  match Router.build st.router "following" [("handle", handle)] with
  | none => .error (.routerError "No following collection path registered.")
  | some p => .ok ⟨origin, p⟩

/-- Embedding of `Context.getFollowersUri`. -/
def getFollowersUri (st : FedState) (origin : String) (handle : Bytes) :
    Except CtxError Url :=
  match Router.build st.router "followers" [("handle", handle)] with
  | none => .error (.routerError "No followers collection path registered.")
  | some p => .ok ⟨origin, p⟩

/-- Embedding of `Context.getHandleFromActorUri` (middleware.ts 412-417):
`null` when the origin differs, when no route matches, or when the matched
route is not the actor route; otherwise the bound `handle` value. -/
def getHandleFromActorUri (st : FedState) (origin : String) (actorUri : Url) :
    Option Bytes :=
  if actorUri.origin ≠ origin then none
  else
    match Router.route st.router actorUri.path with
    | none => none
    | some (r, values) =>
      if r.name = "actor" then values.lookup "handle" else none

/-- C8: every context URL builder raises a `RouterError` when its dispatcher
or path is not registered: on a freshly constructed `Federation` (no surface
registered) all of them fail, each with its distinct message; in particular
`getActorUri` raises `RouterError("No actor dispatcher registered.")`. -/
theorem url_builders_require_registration :
    ∀ (origin : String) (handle : Bytes) (typeId : String)
      (values : List (String × Bytes)),
      getNodeInfoUri newFederation origin =
        .error (.routerError "No NodeInfo dispatcher registered.")
      ∧ getActorUri newFederation origin handle =
        .error (.routerError "No actor dispatcher registered.")
      ∧ getObjectUri newFederation origin typeId values =
        .error (.routerError "No object dispatcher registered.")
      ∧ getOutboxUri newFederation origin handle =
        .error (.routerError "No outbox dispatcher registered.")
      ∧ getInboxUri newFederation origin (some handle) =
        .error (.routerError "No inbox path registered.")
      ∧ getInboxUri newFederation origin none =
        .error (.routerError "No shared inbox path registered.")
      ∧ getFollowingUri newFederation origin handle =
        .error (.routerError "No following collection path registered.")
      ∧ getFollowersUri newFederation origin handle =
        .error (.routerError "No followers collection path registered.") := by
  intro origin handle typeId values
  exact ⟨rfl, rfl, rfl, rfl, rfl, rfl, rfl, rfl⟩

/-- C7: each registration method raises a `RouterError` when the template's
variable set does not match the surface's required shape: zero variables for
`setNodeInfoDispatcher` and the shared inbox path, exactly `{handle}` for
`setActorDispatcher`, `setOutboxDispatcher`, `setFollowingDispatcher`,
`setFollowersDispatcher` and the personal inbox path, and at least one
variable for `setObjectDispatcher`. -/
theorem registration_variable_set_checks :
    (∀ (st : FedState) (t : Template),
      Router.has st.router "nodeInfo" = false → (varSet t).length ≠ 0 →
      (setNodeInfoDispatcher st t).1 =
        some ⟨"Path for NodeInfo dispatcher must have no variables."⟩)
    ∧ (∀ (st : FedState) (t : Template),
      Router.has st.router "actor" = false →
      (varSet t).length ≠ 1 ∨ ¬ (varSet t).contains "handle" →
      (setActorDispatcher st t).1 =
        some ⟨"Path for actor dispatcher must have one variable: {handle}"⟩)
    ∧ (∀ (st : FedState) (typeId : String) (t : Template),
      Router.has st.router ("object:" ++ typeId) = false →
      (varSet t).length < 1 →
      (setObjectDispatcher st typeId t).1 =
        some ⟨"Path for object dispatcher must have at least one variable."⟩)
    ∧ (∀ (st : FedState) (t : Template),
      Router.has st.router "outbox" = false →
      (varSet t).length ≠ 1 ∨ ¬ (varSet t).contains "handle" →
      (setOutboxDispatcher st t).1 =
        some ⟨"Path for outbox dispatcher must have one variable: {handle}"⟩)
    ∧ (∀ (st : FedState) (t : Template),
      Router.has st.router "following" = false →
      (varSet t).length ≠ 1 ∨ ¬ (varSet t).contains "handle" →
      (setFollowingDispatcher st t).1 =
        some ⟨"Path for following collection dispatcher must have one variable: {handle}"⟩)
    ∧ (∀ (st : FedState) (t : Template),
      Router.has st.router "followers" = false →
      (varSet t).length ≠ 1 ∨ ¬ (varSet t).contains "handle" →
      (setFollowersDispatcher st t).1 =
        some ⟨"Path for followers collection dispatcher must have one variable: {handle}"⟩)
    ∧ (∀ (st : FedState) (t : Template) (shared : Option Template),
      Router.has st.router "inbox" = false →
      (varSet t).length ≠ 1 ∨ ¬ (varSet t).contains "handle" →
      (setInboxListeners st t shared).1 =
        some ⟨"Path for inbox must have one variable: {handle}"⟩)
    ∧ (∀ (st : FedState) (tp ts : Template),
      Router.has st.router "inbox" = false →
      (varSet tp).length = 1 → (varSet tp).contains "handle" = true →
      (varSet ts).length ≠ 0 →
      (setInboxListeners st tp (some ts)).1 =
        some ⟨"Path for shared inbox must have no variables."⟩) := by
  refine ⟨fun st t hhas hbad => ?_, fun st t hhas hbad => ?_,
    fun st typeId t hhas hbad => ?_, fun st t hhas hbad => ?_,
    fun st t hhas hbad => ?_, fun st t hhas hbad => ?_,
    fun st t shared hhas hbad => ?_, fun st tp ts hhas h1 h2 hbad => ?_⟩
  · simp [setNodeInfoDispatcher, Router.add, hhas, hbad]
  · simp only [setActorDispatcher, Router.add, hhas, Bool.false_eq_true,
      if_false]
    rw [if_pos hbad]
  · simp only [setObjectDispatcher, Router.add, hhas, Bool.false_eq_true,
      if_false]
    rw [if_pos hbad]
  · simp only [setOutboxDispatcher, Router.add, hhas, Bool.false_eq_true,
      if_false]
    rw [if_pos hbad]
  · simp only [setFollowingDispatcher, Router.add, hhas, Bool.false_eq_true,
      if_false]
    rw [if_pos hbad]
  · simp only [setFollowersDispatcher, Router.add, hhas, Bool.false_eq_true,
      if_false]
    rw [if_pos hbad]
  · simp only [setInboxListeners, Router.add, hhas, Bool.false_eq_true,
      if_false]
    rw [if_pos hbad]
  · simp only [setInboxListeners, Router.add, hhas, Bool.false_eq_true,
      if_false]
    have hc : ¬((varSet tp).length ≠ 1 ∨ ¬ (varSet tp).contains "handle") := by
      rintro (h | h)
      · exact h h1
      · exact h h2
    rw [if_neg hc]
    rw [if_pos hbad]

/-- Witness for C7: concrete wrong-shape templates are rejected on a fresh
`Federation` for every surface: a `{x}` NodeInfo path, a variable-free actor
path (shape `(varSet).length ≠ 1`), a variable-free object path, variable-free
collection and inbox paths, and a `{x}` shared inbox path. -/
theorem registration_variable_set_checks_witness :
    (varSet [litS "users"]).length ≠ 1
    ∧ (varSet [Seg.var "x"]).length ≠ 0
    ∧ (setNodeInfoDispatcher newFederation [Seg.var "x"]).1 =
      some ⟨"Path for NodeInfo dispatcher must have no variables."⟩
    ∧ (setActorDispatcher newFederation [litS "users"]).1 =
      some ⟨"Path for actor dispatcher must have one variable: {handle}"⟩
    ∧ (setObjectDispatcher newFederation "https://example.com/Note" [litS "notes"]).1 =
      some ⟨"Path for object dispatcher must have at least one variable."⟩
    ∧ (setOutboxDispatcher newFederation [litS "outbox"]).1 =
      some ⟨"Path for outbox dispatcher must have one variable: {handle}"⟩
    ∧ (setFollowingDispatcher newFederation [litS "following"]).1 =
      some ⟨"Path for following collection dispatcher must have one variable: {handle}"⟩
    ∧ (setFollowersDispatcher newFederation [litS "followers"]).1 =
      some ⟨"Path for followers collection dispatcher must have one variable: {handle}"⟩
    ∧ (setInboxListeners newFederation [litS "inbox"] none).1 =
      some ⟨"Path for inbox must have one variable: {handle}"⟩
    ∧ (setInboxListeners newFederation [litS "users", Seg.var "handle", litS "inbox"]
        (some [Seg.var "x"])).1 =
      some ⟨"Path for shared inbox must have no variables."⟩ := by
  refine ⟨by decide, by decide, ?_, ?_, ?_, ?_, ?_, ?_, ?_, ?_⟩
  · exact registration_variable_set_checks.1 newFederation [Seg.var "x"]
      (by decide) (by decide)
  · exact registration_variable_set_checks.2.1 newFederation [litS "users"]
      (by decide) (Or.inl (by decide))
  · exact registration_variable_set_checks.2.2.1 newFederation
      "https://example.com/Note" [litS "notes"] (by decide) (by decide)
  · exact registration_variable_set_checks.2.2.2.1 newFederation
      [litS "outbox"] (by decide) (Or.inl (by decide))
  · exact registration_variable_set_checks.2.2.2.2.1 newFederation
      [litS "following"] (by decide) (Or.inl (by decide))
  · exact registration_variable_set_checks.2.2.2.2.2.1 newFederation
      [litS "followers"] (by decide) (Or.inl (by decide))
  · exact registration_variable_set_checks.2.2.2.2.2.2.1 newFederation
      [litS "inbox"] none (by decide) (Or.inl (by decide))
  · exact registration_variable_set_checks.2.2.2.2.2.2.2 newFederation
      [litS "users", Seg.var "handle", litS "inbox"] [Seg.var "x"]
      (by decide) (by decide) (by decide) (by decide)

theorem expandTemplate_of_no_vars (t : Template)
    (values : List (String × Bytes)) (h : templateVars t = []) :
    ∃ p, expandTemplate t values = some p := by
  induction t with
  | nil => exact ⟨[], rfl⟩
  | cons s t ih =>
    cases s with
    | lit c =>
      obtain ⟨p, hp⟩ := ih h
      exact ⟨c :: p, by simp [expandTemplate, hp]⟩
    | var n => simp [templateVars] at h

theorem matchTemplate_expand_handle (hbytes : Bytes)
    (hlt : ∀ b ∈ hbytes, b < 256) :
    ∀ (t : Template) (p : List Bytes),
      expandTemplate t [("handle", hbytes)] = some p →
      matchTemplate t p = some ((templateVars t).map fun n => (n, hbytes)) := by
  intro t
  induction t with
  | nil =>
    intro p hp
    simp only [expandTemplate, Option.some.injEq] at hp
    subst hp
    rfl
  | cons s t ih =>
    cases s with
    | lit c =>
      intro p hp
      simp only [expandTemplate] at hp
      rcases hq : expandTemplate t [("handle", hbytes)] with _ | q
      · rw [hq] at hp
        simp at hp
      · rw [hq] at hp
        simp only [Option.map_some', Option.some.injEq] at hp
        subst hp
        simp only [matchTemplate, if_pos rfl, templateVars]
        exact ih q hq
    | var n =>
      intro p hp
      simp only [expandTemplate] at hp
      by_cases hn : n = "handle"
      · subst hn
        have hl : List.lookup "handle" [("handle", hbytes)] = some hbytes := rfl
        rw [hl] at hp
        rcases hq : expandTemplate t [("handle", hbytes)] with _ | q
        · rw [hq] at hp
          simp at hp
        · rw [hq] at hp
          simp only [Option.map_some', Option.some.injEq] at hp
          subst hp
          simp only [matchTemplate, templateVars, List.map_cons]
          rw [ih q hq, pctDecode_pctEncode hbytes hlt]
          rfl
      · have hb : (n == "handle") = false := beq_eq_false_iff_ne.mpr hn
        have hl : List.lookup n [("handle", hbytes)] = none := by
          simp [List.lookup, hb]
        rw [hl] at hp
        simp at hp

theorem matchTemplate_lit2_ne (a b : Bytes) (p : List Bytes)
    (h : p ≠ [a, b]) : matchTemplate [Seg.lit a, Seg.lit b] p = none := by
  match p with
  | [] => rfl
  | [x] =>
    by_cases hx : x = a
    · simp only [matchTemplate, if_pos hx]
    · simp only [matchTemplate, if_neg hx]
  | x :: y :: rest =>
    by_cases hx : x = a
    · by_cases hy : y = b
      · subst hx hy
        match rest with
        | [] => exact absurd rfl h
        | r :: rs => simp [matchTemplate]
      · simp only [matchTemplate, if_pos hx, if_neg hy]
    · simp only [matchTemplate, if_neg hx]

theorem lookup_handle_map (l : List String) (hbytes : Bytes)
    (hne : l ≠ []) (hall : ∀ n ∈ l, n = "handle") :
    List.lookup "handle" (l.map fun n => (n, hbytes)) = some hbytes := by
  match l with
  | [] => exact absurd rfl hne
  | n :: rest =>
    have : n = "handle" := hall n (List.mem_cons_self n rest)
    subst this
    rfl

theorem length_one_mem {l : List String} {x : String}
    (h1 : l.length = 1) (h2 : x ∈ l) : l = [x] := by
  match l with
  | [y] =>
    simp only [List.mem_singleton] at h2
    rw [h2]
  | [] => simp at h2
  | _ :: _ :: _ => simp at h1

theorem setActorDispatcher_wrong_shape (st : FedState) (t : Template)
    (hhas : Router.has st.router "actor" = false)
    (hbad : (varSet t).length ≠ 1 ∨ ¬ (varSet t).contains "handle") :
    (setActorDispatcher st t).1 =
      some ⟨"Path for actor dispatcher must have one variable: {handle}"⟩ := by
  simp only [setActorDispatcher, Router.add, hhas, Bool.false_eq_true,
    if_false]
  rw [if_pos hbad]

theorem setActorDispatcher_router (t : Template) :
    ((setActorDispatcher newFederation t).2).router =
      newFederation.router ++ [⟨"actor", t⟩] := by
  simp only [setActorDispatcher, Router.add]
  rw [if_neg (by decide)]
  split <;> rfl

theorem build_after_actor (t : Template) (values : List (String × Bytes)) :
    Router.build (newFederation.router ++ [⟨"actor", t⟩]) "actor" values =
      expandTemplate t values := rfl

theorem has_after_actor (t : Template) :
    Router.has (newFederation.router ++ [⟨"actor", t⟩]) "actor" = true := rfl

/-- Counterexample for C10 as stated: registering the actor dispatcher at
`/users/{id}` (a path lacking `{handle}`) raises a `RouterError`, but
afterwards `getActorUri("x")` STILL raises a `RouterError` — reverse building
fails because the stored template's variable `id` has no value — contradicting
"afterwards the corresponding URL builder no longer raises a RouterError". -/
theorem registration_nonatomic_counterexample :
    ((setActorDispatcher newFederation [litS "users", Seg.var "id"]).1).isSome
      = true
    ∧ getActorUri
        (setActorDispatcher newFederation [litS "users", Seg.var "id"]).2
        "https://example.com" (strBytes "x") =
      .error (.routerError "No actor dispatcher registered.") := by
  constructor
  · decide
  · rfl

/-- C10 (amended): registration is not atomic on validation failure — when
`setActorDispatcher` rejects a template whose variable set is wrong, the
route has already been added to the router and no dispatcher callback is
stored; a corrected re-registration then fails as a duplicate
("Actor dispatcher already set."); and the corresponding URL builder no
longer raises when the rejected template had no variables at all (with a
variable other than `handle` it still raises, because reverse building lacks
a value for it). -/
theorem registration_nonatomic :
    (∀ t : Template,
      (varSet t).length ≠ 1 ∨ ¬ (varSet t).contains "handle" →
      ((setActorDispatcher newFederation t).1).isSome = true
      ∧ ((setActorDispatcher newFederation t).2).router =
          newFederation.router ++ [⟨"actor", t⟩]
      ∧ ((setActorDispatcher newFederation t).2).actorCallbacks = false)
    ∧ (∀ t tc : Template,
      (setActorDispatcher (setActorDispatcher newFederation t).2 tc).1 =
        some ⟨"Actor dispatcher already set."⟩)
    ∧ (∀ (t : Template) (origin : String) (h : Bytes), templateVars t = [] →
      ∃ u : Url,
        getActorUri (setActorDispatcher newFederation t).2 origin h = .ok u) := by
  refine ⟨fun t hbad => ?_, fun t tc => ?_, fun t origin h hnov => ?_⟩
  · refine ⟨?_, setActorDispatcher_router t, ?_⟩
    · simp only [setActorDispatcher, Router.add]
      rw [if_neg (by decide), if_pos hbad]
      rfl
    · simp only [setActorDispatcher, Router.add]
      rw [if_neg (by decide), if_pos hbad]
      rfl
  · obtain ⟨r, hrep⟩ : ∃ r, (setActorDispatcher newFederation t).2 = r :=
      ⟨_, rfl⟩
    have hh : Router.has r.router "actor" = true := by
      rw [← hrep, setActorDispatcher_router t]
      exact has_after_actor t
    rw [hrep]
    simp only [setActorDispatcher]
    rw [if_pos hh]
  · obtain ⟨p, hp⟩ := expandTemplate_of_no_vars t [("handle", h)] hnov
    refine ⟨⟨origin, p⟩, ?_⟩
    unfold getActorUri
    rw [setActorDispatcher_router t, build_after_actor t, hp]

/-- Witness for C10 (amended): the variable-free template `/users` is
rejected yet its route lands in the router with no callback stored; the
corrected re-registration at `/users/{handle}` fails as a duplicate; and
`getActorUri` afterwards succeeds. -/
theorem registration_nonatomic_witness :
    ((varSet [litS "users"]).length ≠ 1 ∨
      ¬ (varSet [litS "users"]).contains "handle")
    ∧ ((setActorDispatcher newFederation [litS "users"]).1).isSome = true
    ∧ ((setActorDispatcher newFederation [litS "users"]).2).actorCallbacks
      = false
    ∧ (setActorDispatcher (setActorDispatcher newFederation [litS "users"]).2
        [litS "users", Seg.var "handle"]).1 =
      some ⟨"Actor dispatcher already set."⟩
    ∧ (∃ u : Url, getActorUri
        (setActorDispatcher newFederation [litS "users"]).2
        "https://example.com" (strBytes "x") = .ok u) := by
  refine ⟨Or.inl (by decide), ?_, ?_, ?_, ?_⟩
  · exact (registration_nonatomic.1 [litS "users"] (Or.inl (by decide))).1
  · exact (registration_nonatomic.1 [litS "users"] (Or.inl (by decide))).2.2
  · exact registration_nonatomic.2.1 [litS "users"]
      [litS "users", Seg.var "handle"]
  · exact registration_nonatomic.2.2 [litS "users"] "https://example.com"
      (strBytes "x") rfl

/-- Counterexample for C5 as stated: the actor dispatcher registered at
`/.well-known/{handle}` succeeds (its variable set is exactly `{handle}`),
and `getActorUri "webfinger"` builds `/.well-known/webfinger` — but
`getHandleFromActorUri` of that URL returns `none`, not `some "webfinger"`:
the all-literal webfinger route wins the Router's longest-match, so the
round trip fails for this registered route and handle. -/
theorem actor_uri_roundtrip_counterexample :
    (setActorDispatcher newFederation
      [litS ".well-known", Seg.var "handle"]).1 = none
    ∧ getActorUri
        (setActorDispatcher newFederation
          [litS ".well-known", Seg.var "handle"]).2
        "https://example.com" (strBytes "webfinger") =
      .ok ⟨"https://example.com",
        [strBytes ".well-known", strBytes "webfinger"]⟩
    ∧ getHandleFromActorUri
        (setActorDispatcher newFederation
          [litS ".well-known", Seg.var "handle"]).2
        "https://example.com"
        ⟨"https://example.com",
          [strBytes ".well-known", strBytes "webfinger"]⟩ = none := by
  refine ⟨by decide, by rfl, by decide⟩

/-- C5 (amended): once an actor dispatcher is registered under a template `t`
(the registration having succeeded, which forces `t`'s variable set to be
exactly `{handle}`), `getHandleFromActorUri (getActorUri h) = h` for every
handle made of bytes (< 256) whose built path is not one of the two
always-registered well-known literal routes (`/.well-known/webfinger` and
`/.well-known/nodeinfo`, which otherwise win the Router's longest-match and
make the result `none`, per the counterexample); and `getHandleFromActorUri`
returns `none` for every URL of a different origin and for every URL whose
path does not match the actor template. -/
theorem actor_uri_roundtrip :
    (∀ (t : Template) (st : FedState) (origin : String) (hbytes : Bytes)
        (p : List Bytes),
      setActorDispatcher newFederation t = (none, st) →
      (∀ b ∈ hbytes, b < 256) →
      expandTemplate t [("handle", hbytes)] = some p →
      p ≠ [strBytes ".well-known", strBytes "webfinger"] →
      p ≠ [strBytes ".well-known", strBytes "nodeinfo"] →
      getActorUri st origin hbytes = .ok ⟨origin, p⟩
      ∧ getHandleFromActorUri st origin ⟨origin, p⟩ = some hbytes)
    ∧ (∀ (st : FedState) (origin : String) (u : Url), u.origin ≠ origin →
      getHandleFromActorUri st origin u = none)
    ∧ (∀ (t : Template) (origin : String) (u : Url),
      matchTemplate t u.path = none →
      getHandleFromActorUri (setActorDispatcher newFederation t).2 origin u
        = none) := by
  refine ⟨fun t st origin hbytes p hreg hlt hp hw hn => ?_,
    fun st origin u hu => ?_, fun t origin u hm => ?_⟩
  · have hst : st = (setActorDispatcher newFederation t).2 := by
      rw [hreg]
    have hrouter : st.router = newFederation.router ++ [⟨"actor", t⟩] := by
      rw [hst, setActorDispatcher_router t]
    have hshape : (varSet t).length = 1 ∧ (varSet t).contains "handle" := by
      by_contra hc
      have hbad : (varSet t).length ≠ 1 ∨ ¬ (varSet t).contains "handle" := by
        tauto
      have := setActorDispatcher_wrong_shape newFederation t (by decide) hbad
      rw [hreg] at this
      simp at this
    have hmem : "handle" ∈ varSet t := by
      have := hshape.2
      simpa using this
    have hvar : varSet t = ["handle"] := length_one_mem hshape.1 hmem
    have hall : ∀ n ∈ templateVars t, n = "handle" := by
      intro n hn2
      have : n ∈ varSet t := by
        rw [varSet]
        exact List.mem_dedup.mpr hn2
      rw [hvar] at this
      simpa using this
    have hne : templateVars t ≠ [] := by
      intro hc
      rw [varSet, hc] at hvar
      simp at hvar
    have hmatch : matchTemplate t p =
        some ((templateVars t).map fun n => (n, hbytes)) :=
      matchTemplate_expand_handle hbytes hlt t p hp
    have hmw : matchTemplate webfingerTemplate p = none :=
      matchTemplate_lit2_ne _ _ p hw
    have hmn : matchTemplate nodeInfoJrdTemplate p = none :=
      matchTemplate_lit2_ne _ _ p hn
    constructor
    · unfold getActorUri
      rw [hrouter, build_after_actor t, hp]
    · unfold getHandleFromActorUri
      rw [if_neg (by simp)]
      rw [hrouter]
      simp only [newFederation, Router.route, hmw, hmn, hmatch]
      rw [if_pos trivial]
      exact lookup_handle_map (templateVars t) hbytes hne hall
  · unfold getHandleFromActorUri
    rw [if_pos hu]
  · unfold getHandleFromActorUri
    by_cases hu : u.origin ≠ origin
    · rw [if_pos hu]
    · rw [if_neg hu]
      rw [setActorDispatcher_router t]
      have hl1 : litCount webfingerTemplate = 2 := rfl
      have hl2 : litCount nodeInfoJrdTemplate = 2 := rfl
      rcases hw : matchTemplate webfingerTemplate u.path with _ | vw <;>
        rcases hn2 : matchTemplate nodeInfoJrdTemplate u.path with _ | vn <;>
          simp [newFederation, Router.route, hw, hn2, hm, hl1, hl2]

/-- Witness for C5: with the actor route `/users/{handle}`, the round trip
recovers the handle `john`, a URL of a different origin yields `none`, and a
non-actor path yields `none`. -/
theorem actor_uri_roundtrip_witness :
    (∀ b ∈ strBytes "john", b < 256)
    ∧ getActorUri
        (setActorDispatcher newFederation [litS "users", Seg.var "handle"]).2
        "https://example.com" (strBytes "john") =
      .ok ⟨"https://example.com", [strBytes "users", strBytes "john"]⟩
    ∧ getHandleFromActorUri
        (setActorDispatcher newFederation [litS "users", Seg.var "handle"]).2
        "https://example.com"
        ⟨"https://example.com", [strBytes "users", strBytes "john"]⟩ =
      some (strBytes "john")
    ∧ getHandleFromActorUri
        (setActorDispatcher newFederation [litS "users", Seg.var "handle"]).2
        "https://example.com" ⟨"https://other.example", [strBytes "users"]⟩ =
      none
    ∧ getHandleFromActorUri
        (setActorDispatcher newFederation [litS "users", Seg.var "handle"]).2
        "https://example.com" ⟨"https://example.com", [strBytes "inbox"]⟩ =
      none := by
  have hmain := actor_uri_roundtrip.1 [litS "users", Seg.var "handle"]
    (setActorDispatcher newFederation [litS "users", Seg.var "handle"]).2
    "https://example.com" (strBytes "john")
    [strBytes "users", strBytes "john"]
    (by decide) (by decide) (by decide) (by decide) (by decide)
  refine ⟨by decide, hmain.1, hmain.2, ?_, ?_⟩
  · exact actor_uri_roundtrip.2.1
      (setActorDispatcher newFederation [litS "users", Seg.var "handle"]).2
      "https://example.com" ⟨"https://other.example", [strBytes "users"]⟩
      (by decide)
  · exact actor_uri_roundtrip.2.2 [litS "users", Seg.var "handle"]
      "https://example.com" ⟨"https://example.com", [strBytes "inbox"]⟩
      (by decide)

end Fedify
